import Mathlib

/-!
Verification of the BrandBoost content-generation core.

This file gives a shallow embedding of the content-generation core of the
BrandBoost repository and proves the frozen specification claims about it.

Source mapping:
- `ContentType`, `Tone`, `Language`: the closed string enumerations used as
  dictionary keys throughout `src/utils/prompt_templates.py` and
  `src/utils/generator.py`.
- `promptTemplateFmt` / `get_prompt_template`: the `templates` dictionary of
  `get_prompt_template` (src/utils/prompt_templates.py, lines 19-323).  Each
  Python template literal mentions each of the four placeholders exactly once,
  so the table is embedded as a substitution function; the raw template string
  (with the literal brace placeholders) is recovered by substituting the
  placeholder text itself, which is exactly the Python string literal.
- `generate_fallback_content`: `ContentGenerator._generate_fallback_content`
  (src/utils/generator.py, lines 132-208).  The Python method reads the four
  product fields out of the product dict; here they are passed directly since
  every call site has already validated them.
- `get_recommendations`: src/utils/prompt_templates.py, lines 326-358.
- `generate_content`: `ContentGenerator.generate_content`
  (src/utils/generator.py, lines 28-115).  Python dict field access is
  modelled with `Option` fields, a raised `KeyError` with `Except.error`, and
  the stubbed remote `text_generation` call with an explicit `RemoteOutcome`
  argument.  Wall-clock readings are environment inputs (`elapsed`, `ts`).
- `calculate_kpis`, `get_generation_stats`: src/utils/generator.py, 117-130.
- `create_roi_calculation`: src/utils/visualization.py, lines 184-215.
- `export_content`: src/utils/generator.py, lines 210-236, over an explicit
  file-system state.
- `StatsStore`: a minimal heap of Python dict objects used to express the
  copy-vs-alias semantics of `self.generation_stats.copy()` (line 119).
-/

namespace BrandBoost

/-- Content type enumeration: the closed key set
"Product Description" / "Social Post" / "Email". -/
inductive ContentType where
  | productDescription
  | socialPost
  | email
deriving DecidableEq

/-- Tone enumeration: "Professional" / "Playful" / "Luxury" / "Casual". -/
inductive Tone where
  | professional
  | playful
  | luxury
  | casual
deriving DecidableEq

/-- Language enumeration: "English" / "French". -/
inductive Language where
  | english
  | french
deriving DecidableEq

/-- Whitespace characters stripped by Python `str.strip()` (ASCII range, the
only ones that can occur here). -/
def isPySpace (c : Char) : Bool :=
  c = ' ' || c = '\t' || c = '\n' || c = '\r' || c = '\x0b' || c = '\x0c'

/-- Python `s.strip()`: drop leading and trailing whitespace. -/
def pyStrip (s : String) : String :=
  ⟨((s.data.dropWhile isPySpace).reverse.dropWhile isPySpace).reverse⟩

/-- Python `features.replace(";", ", ")` (the pattern is a single character,
so replacement is character-wise). -/
def replaceSemi (s : String) : String :=
  ⟨s.data.flatMap fun c => if c = ';' then [',', ' '] else [c]⟩

/-- `sub` occurs verbatim inside `s`. -/
def strContains (s sub : String) : Prop :=
  sub.data <:+: s.data

instance (s sub : String) : Decidable (strContains s sub) :=
  inferInstanceAs (Decidable (sub.data <:+: s.data))

/-- The `templates` table of `get_prompt_template`, as a substitution
function: `nm`, `cat`, `feats`, `aud` are the values interpolated by
`str.format` for `product_name`, `category`, `features`, `target_audience`. -/
def promptTemplateFmt (ct : ContentType) (t : Tone) (l : Language)
    (nm cat feats aud : String) : String :=
  match ct, t, l with
  | .productDescription, .professional, .english =>
      "Write a professional product description for " ++ (nm ++ (" in the " ++ (cat ++ (" category. \n                Key features: " ++ (feats ++ ("\n                Target audience: " ++ (aud ++ ("\n                \n                Requirements:\n                - Professional, informative tone\n                - Highlight key features and benefits\n                - Include SEO-friendly keywords\n                - 150-200 words\n                - Focus on value proposition and quality"))))))))
  | .productDescription, .professional, .french =>
      "Écrivez une description de produit professionnelle pour " ++ (nm ++ (" dans la catégorie " ++ (cat ++ (".\n                Caractéristiques clés: " ++ (feats ++ ("\n                Public cible: " ++ (aud ++ ("\n                \n                Exigences:\n                - Ton professionnel et informatif\n                - Mettre en avant les caractéristiques et avantages clés\n                - Inclure des mots-clés SEO\n                - 150-200 mots\n                - Se concentrer sur la proposition de valeur et la qualité"))))))))
  | .productDescription, .playful, .english =>
      "Write a playful and engaging product description for " ++ (nm ++ (" in the " ++ (cat ++ (" category.\n                Key features: " ++ (feats ++ ("\n                Target audience: " ++ (aud ++ ("\n                \n                Requirements:\n                - Fun, energetic tone with personality\n                - Use creative language and emojis\n                - Make it shareable and memorable\n                - 120-180 words\n                - Focus on excitement and user experience"))))))))
  | .productDescription, .playful, .french =>
      "Écrivez une description de produit ludique et engageante pour " ++ (nm ++ (" dans la catégorie " ++ (cat ++ (".\n                Caractéristiques clés: " ++ (feats ++ ("\n                Public cible: " ++ (aud ++ ("\n                \n                Exigences:\n                - Ton amusant et énergique avec de la personnalité\n                - Utiliser un langage créatif et des emojis\n                - Rendre partageable et mémorable\n                - 120-180 mots\n                - Se concentrer sur l\x27excitation et l\x27expérience utilisateur"))))))))
  | .productDescription, .luxury, .english =>
      "Write a sophisticated luxury product description for " ++ (nm ++ (" in the " ++ (cat ++ (" category.\n                Key features: " ++ (feats ++ ("\n                Target audience: " ++ (aud ++ ("\n                \n                Requirements:\n                - Elegant, premium tone\n                - Emphasize exclusivity and craftsmanship\n                - Use refined vocabulary\n                - 180-220 words\n                - Focus on quality, prestige, and sophistication"))))))))
  | .productDescription, .luxury, .french =>
      "Écrivez une description de produit de luxe sophistiquée pour " ++ (nm ++ (" dans la catégorie " ++ (cat ++ (".\n                Caractéristiques clés: " ++ (feats ++ ("\n                Public cible: " ++ (aud ++ ("\n                \n                Exigences:\n                - Ton élégant et premium\n                - Souligner l\x27exclusivité et l\x27artisanat\n                - Utiliser un vocabulaire raffiné\n                - 180-220 mots\n                - Se concentrer sur la qualité, le prestige et la sophistication"))))))))
  | .productDescription, .casual, .english =>
      "Write a casual, friendly product description for " ++ (nm ++ (" in the " ++ (cat ++ (" category.\n                Key features: " ++ (feats ++ ("\n                Target audience: " ++ (aud ++ ("\n                \n                Requirements:\n                - Conversational, approachable tone\n                - Use everyday language\n                - Be relatable and down-to-earth\n                - 130-170 words\n                - Focus on practical benefits and ease of use"))))))))
  | .productDescription, .casual, .french =>
      "Écrivez une description de produit décontractée et amicale pour " ++ (nm ++ (" dans la catégorie " ++ (cat ++ (".\n                Caractéristiques clés: " ++ (feats ++ ("\n                Public cible: " ++ (aud ++ ("\n                \n                Exigences:\n                - Ton conversationnel et accessible\n                - Utiliser un langage quotidien\n                - Être relatable et terre-à-terre\n                - 130-170 mots\n                - Se concentrer sur les avantages pratiques et la facilité d\x27utilisation"))))))))
  | .socialPost, .professional, .english =>
      "Create a professional social media post for " ++ (nm ++ (" in the " ++ (cat ++ (" category.\n                Key features: " ++ (feats ++ ("\n                Target audience: " ++ (aud ++ ("\n                \n                Requirements:\n                - Professional yet engaging tone\n                - Include relevant hashtags\n                - Call-to-action\n                - 100-150 words\n                - Platform-agnostic (works for LinkedIn, Facebook, Twitter)"))))))))
  | .socialPost, .professional, .french =>
      "Créez un post de médias sociaux professionnel pour " ++ (nm ++ (" dans la catégorie " ++ (cat ++ (".\n                Caractéristiques clés: " ++ (feats ++ ("\n                Public cible: " ++ (aud ++ ("\n                \n                Exigences:\n                - Ton professionnel mais engageant\n                - Inclure des hashtags pertinents\n                - Appel à l\x27action\n                - 100-150 mots\n                - Indépendant de la plateforme (fonctionne pour LinkedIn, Facebook, Twitter)"))))))))
  | .socialPost, .playful, .english =>
      "Create a fun, engaging social media post for " ++ (nm ++ (" in the " ++ (cat ++ (" category.\n                Key features: " ++ (feats ++ ("\n                Target audience: " ++ (aud ++ ("\n                \n                Requirements:\n                - Playful, energetic tone with emojis\n                - Creative hashtags\n                - Strong call-to-action\n                - 80-120 words\n                - Highly shareable content"))))))))
  | .socialPost, .playful, .french =>
      "Créez un post de médias sociaux amusant et engageant pour " ++ (nm ++ (" dans la catégorie " ++ (cat ++ (".\n                Caractéristiques clés: " ++ (feats ++ ("\n                Public cible: " ++ (aud ++ ("\n                \n                Exigences:\n                - Ton ludique et énergique avec des emojis\n                - Hashtags créatifs\n                - Appel à l\x27action fort\n                - 80-120 mots\n                - Contenu hautement partageable"))))))))
  | .socialPost, .luxury, .english =>
      "Create a sophisticated luxury social media post for " ++ (nm ++ (" in the " ++ (cat ++ (" category.\n                Key features: " ++ (feats ++ ("\n                Target audience: " ++ (aud ++ ("\n                \n                Requirements:\n                - Elegant, aspirational tone\n                - Premium hashtags\n                - Exclusive feel\n                - 100-140 words\n                - Focus on exclusivity and quality"))))))))
  | .socialPost, .luxury, .french =>
      "Créez un post de médias sociaux de luxe sophistiqué pour " ++ (nm ++ (" dans la catégorie " ++ (cat ++ (".\n                Caractéristiques clés: " ++ (feats ++ ("\n                Public cible: " ++ (aud ++ ("\n                \n                Exigences:\n                - Ton élégant et inspirant\n                - Hashtags premium\n                - Sentiment d\x27exclusivité\n                - 100-140 mots\n                - Se concentrer sur l\x27exclusivité et la qualité"))))))))
  | .socialPost, .casual, .english =>
      "Create a casual, relatable social media post for " ++ (nm ++ (" in the " ++ (cat ++ (" category.\n                Key features: " ++ (feats ++ ("\n                Target audience: " ++ (aud ++ ("\n                \n                Requirements:\n                - Conversational, friendly tone\n                - Relatable hashtags\n                - Easy-going call-to-action\n                - 90-130 words\n                - Authentic and approachable"))))))))
  | .socialPost, .casual, .french =>
      "Créez un post de médias sociaux décontracté et relatable pour " ++ (nm ++ (" dans la catégorie " ++ (cat ++ (".\n                Caractéristiques clés: " ++ (feats ++ ("\n                Public cible: " ++ (aud ++ ("\n                \n                Exigences:\n                - Ton conversationnel et amical\n                - Hashtags relatables\n                - Appel à l\x27action décontracté\n                - 90-130 mots\n                - Authentique et accessible"))))))))
  | .email, .professional, .english =>
      "Write a professional email marketing content for " ++ (nm ++ (" in the " ++ (cat ++ (" category.\n                Key features: " ++ (feats ++ ("\n                Target audience: " ++ (aud ++ ("\n                \n                Requirements:\n                - Professional, trustworthy tone\n                - Clear subject line suggestion\n                - Compelling body content\n                - Strong call-to-action\n                - 200-300 words\n                - Focus on benefits and value"))))))))
  | .email, .professional, .french =>
      "Écrivez un contenu d\x27email marketing professionnel pour " ++ (nm ++ (" dans la catégorie " ++ (cat ++ (".\n                Caractéristiques clés: " ++ (feats ++ ("\n                Public cible: " ++ (aud ++ ("\n                \n                Exigences:\n                - Ton professionnel et digne de confiance\n                - Suggestion d\x27objet claire\n                - Contenu de corps convaincant\n                - Appel à l\x27action fort\n                - 200-300 mots\n                - Se concentrer sur les avantages et la valeur"))))))))
  | .email, .playful, .english =>
      "Write a fun, engaging email marketing content for " ++ (nm ++ (" in the " ++ (cat ++ (" category.\n                Key features: " ++ (feats ++ ("\n                Target audience: " ++ (aud ++ ("\n                \n                Requirements:\n                - Energetic, fun tone\n                - Creative subject line\n                - Engaging storytelling\n                - Exciting call-to-action\n                - 180-250 words\n                - Focus on excitement and engagement"))))))))
  | .email, .playful, .french =>
      "Écrivez un contenu d\x27email marketing amusant et engageant pour " ++ (nm ++ (" dans la catégorie " ++ (cat ++ (".\n                Caractéristiques clés: " ++ (feats ++ ("\n                Public cible: " ++ (aud ++ ("\n                \n                Exigences:\n                - Ton énergique et amusant\n                - Objet créatif\n                - Storytelling engageant\n                - Appel à l\x27action excitant\n                - 180-250 mots\n                - Se concentrer sur l\x27excitation et l\x27engagement"))))))))
  | .email, .luxury, .english =>
      "Write a sophisticated luxury email marketing content for " ++ (nm ++ (" in the " ++ (cat ++ (" category.\n                Key features: " ++ (feats ++ ("\n                Target audience: " ++ (aud ++ ("\n                \n                Requirements:\n                - Elegant, premium tone\n                - Exclusive subject line\n                - Sophisticated language\n                - Refined call-to-action\n                - 220-320 words\n                - Focus on exclusivity and prestige"))))))))
  | .email, .luxury, .french =>
      "Écrivez un contenu d\x27email marketing de luxe sophistiqué pour " ++ (nm ++ (" dans la catégorie " ++ (cat ++ (".\n                Caractéristiques clés: " ++ (feats ++ ("\n                Public cible: " ++ (aud ++ ("\n                \n                Exigences:\n                - Ton élégant et premium\n                - Objet exclusif\n                - Langage sophistiqué\n                - Appel à l\x27action raffiné\n                - 220-320 mots\n                - Se concentrer sur l\x27exclusivité et le prestige"))))))))
  | .email, .casual, .english =>
      "Write a casual, friendly email marketing content for " ++ (nm ++ (" in the " ++ (cat ++ (" category.\n                Key features: " ++ (feats ++ ("\n                Target audience: " ++ (aud ++ ("\n                \n                Requirements:\n                - Conversational, approachable tone\n                - Friendly subject line\n                - Personal touch\n                - Easy-going call-to-action\n                - 190-280 words\n                - Focus on relatability and ease"))))))))
  | .email, .casual, .french =>
      "Écrivez un contenu d\x27email marketing décontracté et amical pour " ++ (nm ++ (" dans la catégorie " ++ (cat ++ (".\n                Caractéristiques clés: " ++ (feats ++ ("\n                Public cible: " ++ (aud ++ ("\n                \n                Exigences:\n                - Ton conversationnel et accessible\n                - Objet amical\n                - Touche personnelle\n                - Appel à l\x27action décontracté\n                - 190-280 mots\n                - Se concentrer sur la relatabilité et la facilité"))))))))

/-- `get_prompt_template(content_type, tone, language)`: the raw template
string, i.e. the table entry with its literal placeholders. -/
def get_prompt_template (ct : ContentType) (t : Tone) (l : Language) : String :=
  promptTemplateFmt ct t l "{product_name}" "{category}" "{features}" "{target_audience}"

/-- `ContentGenerator._generate_fallback_content`: the fallback table entry
for the requested combination, with the four product fields substituted and
semicolons in the feature list replaced by commas. -/
def generate_fallback_content (nm cat feats aud : String)
    (ct : ContentType) (t : Tone) (l : Language) : String :=
  let fr := replaceSemi feats
  match ct, t, l with
  | .productDescription, .professional, .english =>
      "Introducing " ++ (nm ++ (", a premium " ++ (cat ++ (" designed for " ++ (aud ++ (". This exceptional product features " ++ (fr ++ (". Experience the perfect blend of quality and innovation with " ++ (nm ++ ("."))))))))))
  | .productDescription, .professional, .french =>
      "Présentation de " ++ (nm ++ (", un " ++ (cat ++ (" premium conçu pour " ++ (aud ++ (". Ce produit exceptionnel présente " ++ (fr ++ (". Découvrez le parfait équilibre entre qualité et innovation avec " ++ (nm ++ ("."))))))))))
  | .productDescription, .playful, .english =>
      "🎉 Meet " ++ (nm ++ (" - the " ++ (cat ++ (" that\x27s about to become your new obsession! Perfect for " ++ (aud ++ (", it\x27s packed with " ++ (fr ++ (". Get ready to fall in love! 💕"))))))))
  | .productDescription, .playful, .french =>
      "🎉 Rencontrez " ++ (nm ++ (" - le " ++ (cat ++ (" qui va devenir votre nouvelle obsession ! Parfait pour " ++ (aud ++ (", il est rempli de " ++ (fr ++ (". Préparez-vous à tomber amoureux ! 💕"))))))))
  | .productDescription, .luxury, .english =>
      "Indulge in the exquisite " ++ (nm ++ (", a distinguished " ++ (cat ++ (" crafted for discerning " ++ (aud ++ (". Featuring " ++ (fr ++ (", this masterpiece represents the pinnacle of luxury and sophistication."))))))))
  | .productDescription, .luxury, .french =>
      "Savourez l\x27exquis " ++ (nm ++ (", un " ++ (cat ++ (" distingué conçu pour " ++ (aud ++ (" exigeants. Avec " ++ (fr ++ (", ce chef-d\x27œuvre représente le summum du luxe et de la sophistication."))))))))
  | .productDescription, .casual, .english =>
      "Hey there! Check out " ++ (nm ++ (" - it\x27s a pretty cool " ++ (cat ++ (" that " ++ (aud ++ (" are going to love. It\x27s got " ++ (fr ++ (" and honestly, it\x27s just what you need."))))))))
  | .productDescription, .casual, .french =>
      "Salut ! Découvrez " ++ (nm ++ (" - c\x27est un " ++ (cat ++ (" plutôt cool que " ++ (aud ++ (" vont adorer. Il a " ++ (fr ++ (" et honnêtement, c\x27est exactement ce dont vous avez besoin."))))))))
  | .socialPost, .professional, .english =>
      "Discover " ++ (nm ++ (" - the " ++ (cat ++ (" solution for " ++ (aud ++ (". Features include " ++ (fr ++ (". #ProductLaunch #Innovation #Quality"))))))))
  | .socialPost, .professional, .french =>
      "Découvrez " ++ (nm ++ (" - la solution " ++ (cat ++ (" pour " ++ (aud ++ (". Caractéristiques : " ++ (fr ++ (". #LancementProduit #Innovation #Qualité"))))))))
  | .socialPost, .playful, .english =>
      "🚀 " ++ (nm ++ (" is here and it\x27s AMAZING! Perfect for " ++ (aud ++ (" who want " ++ (fr ++ (". Who\x27s excited? 🙋‍♀️ #NewProduct #Excited #MustHave"))))))
  | .socialPost, .playful, .french =>
      "🚀 " ++ (nm ++ (" est là et c\x27est INCROYABLE ! Parfait pour " ++ (aud ++ (" qui veulent " ++ (fr ++ (". Qui est excité ? 🙋‍♀️ #NouveauProduit #Excité #Indispensable"))))))
  | .socialPost, .luxury, .english =>
      "Experience the epitome of luxury with " ++ (nm ++ (". This exclusive " ++ (cat ++ (" offers " ++ (fr ++ (" for the most discerning " ++ (aud ++ (". #Luxury #Exclusive #Premium"))))))))
  | .socialPost, .luxury, .french =>
      "Vivez l\x27épitomé du luxe avec " ++ (nm ++ (". Ce " ++ (cat ++ (" exclusif offre " ++ (fr ++ (" pour les " ++ (aud ++ (" les plus exigeants. #Luxe #Exclusif #Premium"))))))))
  | .socialPost, .casual, .english =>
      "Just tried " ++ (nm ++ (" and wow! 😍 Great " ++ (cat ++ (" for " ++ (aud ++ (". Love that it has " ++ (fr ++ (". Highly recommend! #Review #Recommendation"))))))))
  | .socialPost, .casual, .french =>
      "Je viens d\x27essayer " ++ (nm ++ (" et wow ! 😍 Super " ++ (cat ++ (" pour " ++ (aud ++ (". J\x27adore qu\x27il ait " ++ (fr ++ (". Je recommande fortement ! #Avis #Recommandation"))))))))
  | .email, .professional, .english =>
      "Subject: Introducing " ++ (nm ++ (" - The " ++ (cat ++ (" Solution You\x27ve Been Waiting For\n\nDear Valued Customer,\n\nWe\x27re excited to present " ++ (nm ++ (", a premium " ++ (cat ++ (" designed specifically for " ++ (aud ++ (". This innovative product features " ++ (fr ++ (".\n\nBest regards,\nThe BrandBoost Team"))))))))))))
  | .email, .professional, .french =>
      "Objet : Présentation de " ++ (nm ++ (" - La solution " ++ (cat ++ (" que vous attendiez\n\nCher client,\n\nNous sommes ravis de vous présenter " ++ (nm ++ (", un " ++ (cat ++ (" premium conçu spécifiquement pour " ++ (aud ++ (". Ce produit innovant présente " ++ (fr ++ (".\n\nCordialement,\nL\x27équipe BrandBoost"))))))))))))
  | .email, .playful, .english =>
      "Subject: 🎉 " ++ (nm ++ (" is HERE! (And it\x27s amazing!)\n\nHey there!\n\nGuess what? " ++ (nm ++ (" just dropped and it\x27s everything " ++ (aud ++ (" have been dreaming of! With " ++ (fr ++ (", this " ++ (cat ++ (" is about to change your life! 💫\n\nCheers,\nThe BrandBoost Squad"))))))))))
  | .email, .playful, .french =>
      "Objet : 🎉 " ++ (nm ++ (" est LÀ ! (Et c\x27est incroyable !)\n\nSalut !\n\nDevine quoi ? " ++ (nm ++ (" vient de sortir et c\x27est tout ce que " ++ (aud ++ (" rêvaient ! Avec " ++ (fr ++ (", ce " ++ (cat ++ (" va changer votre vie ! 💫\n\nSalut,\nL\x27équipe BrandBoost"))))))))))
  | .email, .luxury, .english =>
      "Subject: Exclusive Invitation: Discover " ++ (nm ++ ("\n\nDear Esteemed Client,\n\nWe are honored to invite you to experience " ++ (nm ++ (", our most exclusive " ++ (cat ++ (" offering. Crafted for the discerning " ++ (aud ++ (", it embodies " ++ (fr ++ (".\n\nWarm regards,\nBrandBoost Luxury Division"))))))))))
  | .email, .luxury, .french =>
      "Objet : Invitation exclusive : Découvrez " ++ (nm ++ ("\n\nCher client estimé,\n\nNous avons l\x27honneur de vous inviter à découvrir " ++ (nm ++ (", notre offre " ++ (cat ++ (" la plus exclusive. Conçu pour les " ++ (aud ++ (" exigeants, il incarne " ++ (fr ++ (".\n\nCordialement,\nDivision Luxe BrandBoost"))))))))))
  | .email, .casual, .english =>
      "Subject: You\x27ll love " ++ (nm ++ ("!\n\nHi!\n\nJust wanted to share something cool with you - " ++ (nm ++ ("! It\x27s this awesome " ++ (cat ++ (" that " ++ (aud ++ (" are totally into. The best part? It comes with " ++ (fr ++ (".\n\nTake care,\nThe BrandBoost Team"))))))))))
  | .email, .casual, .french =>
      "Objet : Vous allez adorer " ++ (nm ++ (" !\n\nSalut !\n\nJe voulais juste partager quelque chose de cool avec toi - " ++ (nm ++ (" ! C\x27est ce " ++ (cat ++ (" génial que " ++ (aud ++ (" adorent. Le meilleur ? Il vient avec " ++ (fr ++ (".\n\nÀ bientôt,\nL\x27équipe BrandBoost"))))))))))

/-- `get_recommendations(content_type, tone)`. -/
def get_recommendations (ct : ContentType) (t : Tone) : String :=
  match ct, t with
  | .productDescription, .professional =>
      "Professional tone is recommended for product pages to boost SEO and build credibility with customers."
  | .productDescription, .playful =>
      "Playful tone works great for lifestyle products and social media integration to increase engagement."
  | .productDescription, .luxury =>
      "Luxury tone is perfect for premium products to justify higher prices and attract affluent customers."
  | .productDescription, .casual =>
      "Casual tone helps make products more approachable and relatable to everyday consumers."
  | .socialPost, .professional =>
      "Professional tone is ideal for LinkedIn and B2B platforms to maintain brand authority."
  | .socialPost, .playful =>
      "Playful tone is best for social media campaigns to increase engagement and shareability."
  | .socialPost, .luxury =>
      "Luxury tone creates aspirational content that drives premium brand perception."
  | .socialPost, .casual =>
      "Casual tone builds authentic connections and encourages user-generated content."
  | .email, .professional =>
      "Professional tone builds trust and is perfect for transactional and informational emails."
  | .email, .playful =>
      "Playful tone increases open rates and engagement in promotional campaigns."
  | .email, .luxury =>
      "Luxury tone creates exclusivity and drives high-value customer actions."
  | .email, .casual =>
      "Casual tone improves deliverability and creates personal connections with subscribers."

/-- The running tally `self.generation_stats` (a dict of three ints). -/
structure GenerationStats where
  total_generations : Nat
  total_time_saved : Nat
  total_cost_saved : Nat
deriving DecidableEq

/-- A product record as passed to `generate_content`: each of the four
required keys may be present or absent (absence makes the Python dict access
raise `KeyError`). -/
structure ProductData where
  productName : Option String
  category : Option String
  featuresAttributes : Option String
  targetAudience : Option String
deriving DecidableEq

/-- Outcome of the stubbed remote `self.client.text_generation` call: either
a returned string, or a raised exception (any exception class --
`StopIteration` and generic API errors are handled identically, lines
71-76 of src/utils/generator.py). -/
inductive RemoteOutcome where
  | ok (response : String)
  | raised (err : String)
deriving DecidableEq

/-- The `metadata` dict of a generation result. -/
structure Metadata where
  product_name : String
  content_type : ContentType
  tone : Tone
  language : Language
  timestamp : Nat
  error : Option String
deriving DecidableEq

/-- The dict returned by `generate_content`. -/
structure GenResult where
  content : String
  generation_time : Nat
  recommendations : String
  metadata : Metadata
deriving DecidableEq

/-- First missing required product key in the evaluation order of the
`prompt_template.format(...)` keyword arguments (src/utils/generator.py
lines 52-57); `str(e)` of the resulting `KeyError` quotes this key. -/
def firstMissingField (pd : ProductData) : Option String :=
  if pd.productName.isNone then some "Product Name"
  else if pd.category.isNone then some "Category"
  else if pd.featuresAttributes.isNone then some "Features/Attributes"
  else if pd.targetAudience.isNone then some "Target Audience"
  else none

/-- Placeholder content of the catch-all error result (line 104). -/
def errorContent : String :=
  "Sorry, there was an error generating content. Please try again."

/-- Recommendation text of the catch-all error result (line 106). -/
def errorRecommendations : String :=
  "Please check your internet connection and try again."

/-- Python `str(KeyError(k))`, which is the quoted key. -/
def keyErrorStr (k : String) : String :=
  "\x27" ++ k ++ "\x27"

/-- `ContentGenerator.generate_content`.  The state (`stats`), the stubbed
remote outcome and the two clock readings are explicit; the returned pair is
(result-or-uncaught-exception, new stats).  The outer `try` catches every
exception except the `KeyError` re-raised by the handler itself when
`product_data["Product Name"]` is absent (line 108). -/
def generate_content (stats : GenerationStats) (pd : ProductData)
    (ct : ContentType) (tone : Tone) (lang : Language)
    (remote : RemoteOutcome) (elapsed ts : Nat) :
    Except String GenResult × GenerationStats :=
  match pd.productName, pd.category, pd.featuresAttributes, pd.targetAudience with
  | some nm, some cat, some feats, some aud =>
      let _prompt := promptTemplateFmt ct tone lang nm cat feats aud
      let response :=
        match remote with
        | .ok s => s
        | .raised _ => generate_fallback_content nm cat feats aud ct tone lang
      let stats' : GenerationStats :=
        ⟨stats.total_generations + 1, stats.total_time_saved + 30,
          stats.total_cost_saved + 12⟩
      let recs := get_recommendations ct tone
      (Except.ok {
          content := pyStrip response
          generation_time := elapsed
          recommendations := recs
          metadata := { product_name := nm, content_type := ct, tone := tone,
                        language := lang, timestamp := ts, error := none } },
        stats')
  | _, _, _, _ =>
      match pd.productName with
      | some nm =>
          (Except.ok {
              content := errorContent
              generation_time := 0
              recommendations := errorRecommendations
              metadata := { product_name := nm, content_type := ct, tone := tone,
                            language := lang, timestamp := ts,
                            error := some (keyErrorStr ((firstMissingField pd).getD "")) } },
            stats)
      | none => (Except.error (keyErrorStr "Product Name"), stats)

/-- `get_generation_stats` at the level of values; the dict `.copy()`
aliasing behaviour is modelled separately by `statsCopyOp`. -/
def get_generation_stats (s : GenerationStats) : GenerationStats := s

/-- `round(x, 1)` over rationals. -/
def round1 (q : ℚ) : ℚ := (round (q * 10) : ℤ) / 10

/-- The dict returned by `calculate_kpis`. -/
structure Kpis where
  time_saved_hours : ℚ
  cost_saved_usd : ℚ
  generations_count : Nat
  avg_time_per_generation : ℚ
deriving DecidableEq

/-- `ContentGenerator.calculate_kpis`. -/
def calculate_kpis (s : GenerationStats) : Kpis :=
  let stats := get_generation_stats s
  { time_saved_hours := round1 ((stats.total_time_saved : ℚ) / 60)
    cost_saved_usd := (stats.total_cost_saved : ℚ)
    generations_count := stats.total_generations
    avg_time_per_generation :=
      round1 ((stats.total_time_saved : ℚ) / ((max stats.total_generations 1 : ℕ) : ℚ)) }

/-- The dict returned by `create_roi_calculation`. -/
structure RoiData where
  manual_cost : ℚ
  ai_cost : ℚ
  net_savings : ℚ
  roi_percentage : ℚ
  cost_per_content : ℚ
deriving DecidableEq

/-- ROI assumption constant (src/utils/visualization.py line 195). -/
def hourly_writer_rate : ℚ := 45

/-- ROI assumption constant (line 196): 0.08 EUR per generation. -/
def ai_cost_per_generation : ℚ := 8 / 100

/-- `create_roi_calculation` (src/utils/visualization.py, lines 184-215). -/
def create_roi_calculation (k : Kpis) : RoiData :=
  let time_saved_hours := k.time_saved_hours
  let generations : ℚ := (k.generations_count : ℚ)
  let manual_cost := time_saved_hours * hourly_writer_rate
  let ai_cost := generations * ai_cost_per_generation
  let net_savings := manual_cost - ai_cost
  let roi_percentage := (net_savings / max ai_cost 1) * 100
  { manual_cost := manual_cost, ai_cost := ai_cost, net_savings := net_savings,
    roi_percentage := roi_percentage, cost_per_content := ai_cost_per_generation }

/-- Stats states reachable in a session: the constructor initialises the
tally to zeroes (src/utils/generator.py lines 22-26) and only
`generate_content` mutates it. -/
inductive Reachable : GenerationStats → Prop where
  | init : Reachable ⟨0, 0, 0⟩
  | step (s : GenerationStats) (pd : ProductData) (ct : ContentType) (t : Tone)
      (l : Language) (r : RemoteOutcome) (e ts : Nat) :
      Reachable s → Reachable (generate_content s pd ct t l r e ts).2

/-- File-system state for `export_content`: named files and existing
directories. -/
structure FileSystem where
  files : List (String × String)
  dirs : List String
deriving DecidableEq

/-- The default export file name `brandboost_content_<timestamp>.txt`. -/
def defaultExportName (now : Nat) : String :=
  "brandboost_content_" ++ toString now ++ ".txt"

/-- `ContentGenerator.export_content`.  `now` is the current Unix timestamp,
`writeOk` tells whether the file write succeeds (the `except` branch returns
`None`).  Python `if not filename` treats both `None` and `""` as absent. -/
def export_content (fs : FileSystem) (content : String) (filename : Option String)
    (now : Nat) (writeOk : Bool) : FileSystem × Option String :=
  let fname :=
    match filename with
    | none => defaultExportName now
    | some f => if f = "" then defaultExportName now else f
  let fs1 : FileSystem :=
    { fs with dirs := if fs.dirs.contains "reports" then fs.dirs else "reports" :: fs.dirs }
  let filepath := "reports/" ++ fname
  if writeOk then
    ({ fs1 with files := (filepath, content) :: fs1.files.filter (fun p => p.1 ≠ filepath) },
      some filepath)
  else
    (fs1, none)

/-- Contents of the file at path `p`, if present. -/
def readFile (fs : FileSystem) (p : String) : Option String :=
  (fs.files.find? (fun q => q.1 == p)).map (fun q => q.2)

/-- A heap of stats dicts: cell `r` is the dict object referenced by `r`.
This models Python reference semantics for `self.generation_stats`. -/
structure StatsStore where
  cells : List GenerationStats
deriving DecidableEq

/-- Dereference a stats dict. -/
def storeGet (st : StatsStore) (r : Nat) : GenerationStats :=
  st.cells.getD r ⟨0, 0, 0⟩

/-- In-place mutation of the dict referenced by `r`. -/
def storeSet (st : StatsStore) (r : Nat) (v : GenerationStats) : StatsStore :=
  ⟨st.cells.set r v⟩

/-- `get_generation_stats` with reference semantics:
`return self.generation_stats.copy()` allocates a fresh dict holding the
current field values and returns a reference to it. -/
def statsCopyOp (st : StatsStore) (r : Nat) : StatsStore × Nat :=
  (⟨st.cells ++ [storeGet st r]⟩, st.cells.length)

/-! ## Helper lemmas -/

/-- A string built as `pre ++ (sub ++ post)` contains `sub` verbatim. -/
theorem strContains_of_decomp (pre sub post : String) :
    strContains (pre ++ (sub ++ post)) sub :=
  ⟨pre.data, post.data, by simp [String.data_append]⟩

/-- A string with a non-empty prefix is non-empty. -/
theorem ne_empty_of_decomp (pre rest : String) (h : 0 < pre.data.length) :
    pre ++ rest ≠ "" := by
  intro hc
  have hd : (pre ++ rest).data = ([] : List Char) := by rw [hc]
  rw [String.data_append] at hd
  cases hp : pre.data with
  | nil => rw [hp] at h; simp at h
  | cons a as => rw [hp] at hd; simp at hd

/-- Each `generate_content` call either leaves the tally unchanged (the
catch-all error path) or increments the three counters by 1 / 30 / 12. -/
theorem generate_stats_cases (s : GenerationStats) (pd : ProductData)
    (ct : ContentType) (t : Tone) (l : Language) (r : RemoteOutcome) (e ts : Nat) :
    (generate_content s pd ct t l r e ts).2 = s ∨
    (generate_content s pd ct t l r e ts).2 =
      ⟨s.total_generations + 1, s.total_time_saved + 30, s.total_cost_saved + 12⟩ := by
  rcases pd with ⟨pn, c, f, a⟩
  cases pn <;> cases c <;> cases f <;> cases a <;>
    simp [generate_content]

/-- A call on a record with all four fields present increments the tally. -/
theorem generate_stats_full (s : GenerationStats) (nm cat feats aud : String)
    (ct : ContentType) (t : Tone) (l : Language) (r : RemoteOutcome) (e ts : Nat) :
    (generate_content s ⟨some nm, some cat, some feats, some aud⟩ ct t l r e ts).2 =
      ⟨s.total_generations + 1, s.total_time_saved + 30, s.total_cost_saved + 12⟩ := rfl

/-- Invariant of the reachable tally states: time saved is 30 minutes and
cost saved 12 units per counted generation. -/
theorem reachable_invariant (s : GenerationStats) (h : Reachable s) :
    s.total_time_saved = 30 * s.total_generations ∧
    s.total_cost_saved = 12 * s.total_generations := by
  induction h with
  | init => exact ⟨rfl, rfl⟩
  | step s pd ct t l r e ts _ ih =>
      rcases generate_stats_cases s pd ct t l r e ts with h2 | h2 <;> rw [h2]
      · exact ih
      · exact ⟨by simp [ih.1]; ring, by simp [ih.2]; ring⟩

/-- `round(x, 1)` is the identity on integers. -/
theorem round1_intCast (m : ℤ) : round1 (m : ℚ) = (m : ℚ) := by
  unfold round1
  have h : ((m : ℚ) * 10) = ((m * 10 : ℤ) : ℚ) := by push_cast; ring
  rw [h, round_intCast]
  push_cast
  ring

/-- If every required field is present, `firstMissingField` is `none` and
conversely. -/
theorem firstMissingField_none_iff (pd : ProductData) :
    firstMissingField pd = none ↔
      pd.productName ≠ none ∧ pd.category ≠ none ∧
      pd.featuresAttributes ≠ none ∧ pd.targetAudience ≠ none := by
  rcases pd with ⟨pn, c, f, a⟩
  cases pn <;> cases c <;> cases f <;> cases a <;> simp [firstMissingField]

/-! ## Claim theorems -/

/-- C1 (amended): with all four product attributes present and the remote
dependency raising, `generate_content` returns the fallback-table entry for
the exact (contentType, tone, language) combination with the product name,
category, comma-joined features and target audience substituted (then
stripped, which is the identity on every table entry) -- but the result
metadata carries NO error indicator: `error` is absent on this path. -/
theorem c1_fallback_result (s : GenerationStats) (nm cat feats aud msg : String)
    (ct : ContentType) (t : Tone) (l : Language) (e ts : Nat) :
    (generate_content s ⟨some nm, some cat, some feats, some aud⟩ ct t l
        (.raised msg) e ts).1 =
      Except.ok {
        content := pyStrip (generate_fallback_content nm cat feats aud ct t l)
        generation_time := e
        recommendations := get_recommendations ct t
        metadata := { product_name := nm, content_type := ct, tone := t,
                      language := l, timestamp := ts, error := none } } := rfl

/-- C1 counterexample: for the spec's own example (Aqua Bottle, Product
Description, Casual, English, remote stubbed to fail) the generated content
is exactly the substituted fallback entry, but the metadata error indicator
is `none`, refuting "metadata contains a non-empty error indicator". -/
theorem c1_counterexample :
    (generate_content ⟨0, 0, 0⟩
        ⟨some "Aqua Bottle", some "Drinkware", some "Insulated;BPA-free", some "Athletes"⟩
        .productDescription .casual .english (.raised "API down") 5 100).1 =
      Except.ok {
        content := "Hey there! Check out Aqua Bottle - it\x27s a pretty cool Drinkware that Athletes are going to love. It\x27s got Insulated, BPA-free and honestly, it\x27s just what you need."
        generation_time := 5
        recommendations := "Casual tone helps make products more approachable and relatable to everyday consumers."
        metadata := { product_name := "Aqua Bottle", content_type := .productDescription,
                      tone := .casual, language := .english, timestamp := 100,
                      error := none } } := rfl

/-- C2 (amended): a remote call that raises (including the `StopIteration`
signal the code uses for an absent/empty API response) yields the fallback
entry, while a string returned without raising -- even the empty string --
is treated as success and returned (stripped) as the content. -/
theorem c2_raise_vs_return (s : GenerationStats) (nm cat feats aud msg resp : String)
    (ct : ContentType) (t : Tone) (l : Language) (e ts : Nat) :
    ((generate_content s ⟨some nm, some cat, some feats, some aud⟩ ct t l
        (.raised msg) e ts).1.map (fun res => res.content) =
      Except.ok (pyStrip (generate_fallback_content nm cat feats aud ct t l))) ∧
    ((generate_content s ⟨some nm, some cat, some feats, some aud⟩ ct t l
        (.ok resp) e ts).1.map (fun res => res.content) =
      Except.ok (pyStrip resp)) :=
  ⟨rfl, rfl⟩

/-- C2 counterexample: when the remote dependency returns the empty string
without raising, the result content is the empty string -- not the (non-empty)
fallback-table entry -- refuting "an empty result is treated as a failure". -/
theorem c2_counterexample :
    (generate_content ⟨0, 0, 0⟩
        ⟨some "Aqua Bottle", some "Drinkware", some "Insulated;BPA-free", some "Athletes"⟩
        .productDescription .casual .english (.ok "") 0 0).1 =
      Except.ok {
        content := ""
        generation_time := 0
        recommendations := "Casual tone helps make products more approachable and relatable to everyday consumers."
        metadata := { product_name := "Aqua Bottle", content_type := .productDescription,
                      tone := .casual, language := .english, timestamp := 0,
                      error := none } } ∧
    generate_fallback_content "Aqua Bottle" "Drinkware" "Insulated;BPA-free" "Athletes"
      .productDescription .casual .english ≠ "" := by
  constructor
  · rfl
  · decide

/-- C3 (amended): a product record lacking a required attribute never reaches
the remote dependency (the outcome does not depend on the stubbed remote
call), leaves the tally unchanged, and is NOT surfaced as a raised
`MissingFieldError`: when the name attribute is present the call returns an
error-result whose metadata records the quoted missing key, and only when
the name attribute itself is absent does the call raise (a `KeyError` from
the error handler); a record with all four attributes never raises. -/
theorem c3_missing_field (s : GenerationStats) (pd : ProductData)
    (ct : ContentType) (t : Tone) (l : Language) (r r' : RemoteOutcome)
    (e ts : Nat) (k : String) (h : firstMissingField pd = some k) :
    generate_content s pd ct t l r e ts = generate_content s pd ct t l r' e ts ∧
    (generate_content s pd ct t l r e ts).2 = s ∧
    (∀ nm, pd.productName = some nm →
      (generate_content s pd ct t l r e ts).1 = Except.ok {
        content := errorContent
        generation_time := 0
        recommendations := errorRecommendations
        metadata := { product_name := nm, content_type := ct, tone := t,
                      language := l, timestamp := ts,
                      error := some (keyErrorStr k) } }) ∧
    (pd.productName = none →
      (generate_content s pd ct t l r e ts).1 =
        Except.error (keyErrorStr "Product Name")) ∧
    (∀ pd', firstMissingField pd' = none →
      ∃ res, (generate_content s pd' ct t l r e ts).1 = Except.ok res) := by
  refine ⟨?_, ?_, ?_, ?_, ?_⟩
  · rcases pd with ⟨pn, c, f, a⟩
    cases pn <;> cases c <;> cases f <;> cases a <;>
      first
        | rfl
        | simp [firstMissingField] at h
  · rcases pd with ⟨pn, c, f, a⟩
    cases pn <;> cases c <;> cases f <;> cases a <;>
      first
        | rfl
        | simp [firstMissingField] at h
  · intro nm hnm
    rcases pd with ⟨pn, c, f, a⟩
    cases pn <;> cases c <;> cases f <;> cases a <;>
      simp_all [firstMissingField, generate_content]
  · intro hnone
    rcases pd with ⟨pn, c, f, a⟩
    cases pn <;> cases c <;> cases f <;> cases a <;>
      simp_all [firstMissingField, generate_content]
  · intro pd' h'
    rcases pd' with ⟨pn, c, f, a⟩
    cases pn <;> cases c <;> cases f <;> cases a <;>
      first
        | exact ⟨_, rfl⟩
        | simp [firstMissingField] at h'

/-- C3 counterexample: a record whose `Category` key is absent (name present)
makes `generate_content` return an error-result -- it does not raise any
`MissingFieldError` to the caller, refuting the claim as stated. -/
theorem c3_counterexample :
    (generate_content ⟨0, 0, 0⟩ ⟨some "X", none, some "f", some "a"⟩
        .email .luxury .french (.ok "hi") 0 0).1 =
      Except.ok {
        content := "Sorry, there was an error generating content. Please try again."
        generation_time := 0
        recommendations := "Please check your internet connection and try again."
        metadata := { product_name := "X", content_type := .email, tone := .luxury,
                      language := .french, timestamp := 0,
                      error := some "\x27Category\x27" } } := rfl

/-- C4: every completed call (remote success or fallback alike: any remote
outcome, all four attributes present) adds exactly 1 / 30 minutes / 12 units
to the tally; three chained calls from the initial state give
`total_generations = 3` and `total_time_saved = 90`; and no call -- even one
taking the error path -- ever decrements any counter. -/
theorem c4_stats_increment (s : GenerationStats) (pd0 : ProductData)
    (nm1 cat1 feats1 aud1 nm2 cat2 feats2 aud2 nm3 cat3 feats3 aud3 : String)
    (ct0 ct1 ct2 ct3 : ContentType) (t0 t1 t2 t3 : Tone) (l0 l1 l2 l3 : Language)
    (r0 r1 r2 r3 : RemoteOutcome) (e0 e1 e2 e3 ts0 ts1 ts2 ts3 : Nat) :
    ((generate_content s ⟨some nm1, some cat1, some feats1, some aud1⟩
        ct1 t1 l1 r1 e1 ts1).2 =
      ⟨s.total_generations + 1, s.total_time_saved + 30, s.total_cost_saved + 12⟩) ∧
    ((get_generation_stats
        (generate_content
          (generate_content
            (generate_content ⟨0, 0, 0⟩ ⟨some nm1, some cat1, some feats1, some aud1⟩
              ct1 t1 l1 r1 e1 ts1).2
            ⟨some nm2, some cat2, some feats2, some aud2⟩ ct2 t2 l2 r2 e2 ts2).2
          ⟨some nm3, some cat3, some feats3, some aud3⟩ ct3 t3 l3 r3 e3 ts3).2).total_generations = 3 ∧
      (get_generation_stats
        (generate_content
          (generate_content
            (generate_content ⟨0, 0, 0⟩ ⟨some nm1, some cat1, some feats1, some aud1⟩
              ct1 t1 l1 r1 e1 ts1).2
            ⟨some nm2, some cat2, some feats2, some aud2⟩ ct2 t2 l2 r2 e2 ts2).2
          ⟨some nm3, some cat3, some feats3, some aud3⟩ ct3 t3 l3 r3 e3 ts3).2).total_time_saved = 90) ∧
    (s.total_generations ≤ (generate_content s pd0 ct0 t0 l0 r0 e0 ts0).2.total_generations ∧
     s.total_time_saved ≤ (generate_content s pd0 ct0 t0 l0 r0 e0 ts0).2.total_time_saved ∧
     s.total_cost_saved ≤ (generate_content s pd0 ct0 t0 l0 r0 e0 ts0).2.total_cost_saved) := by
  refine ⟨generate_stats_full s nm1 cat1 feats1 aud1 ct1 t1 l1 r1 e1 ts1, ⟨rfl, rfl⟩, ?_⟩
  rcases generate_stats_cases s pd0 ct0 t0 l0 r0 e0 ts0 with h2 | h2 <;> rw [h2]
  · exact ⟨Nat.le_refl _, Nat.le_refl _, Nat.le_refl _⟩
  · exact ⟨Nat.le_add_right _ _, Nat.le_add_right _ _, Nat.le_add_right _ _⟩

/-- C5 (amended): for every (contentType, tone, language) combination the
template, fallback and recommendation lookups are total (the embedded tables
cover all 24 resp. 12 keys) and return non-empty strings; every fallback
entry contains the product name verbatim; the template entry contains the
`product_name` placeholder -- the name itself appears verbatim only in the
interpolated prompt, for every product. -/
theorem c5_tables_total (ct : ContentType) (t : Tone) (l : Language)
    (nm cat feats aud : String) :
    get_prompt_template ct t l ≠ "" ∧
    strContains (get_prompt_template ct t l) "{product_name}" ∧
    strContains (promptTemplateFmt ct t l nm cat feats aud) nm ∧
    generate_fallback_content nm cat feats aud ct t l ≠ "" ∧
    strContains (generate_fallback_content nm cat feats aud ct t l) nm ∧
    get_recommendations ct t ≠ "" := by
  cases ct <;> cases t <;> cases l <;>
    exact ⟨ne_empty_of_decomp _ _ (by decide), strContains_of_decomp _ _ _,
      strContains_of_decomp _ _ _, ne_empty_of_decomp _ _ (by decide),
      strContains_of_decomp _ _ _, by decide⟩

set_option maxRecDepth 40000 in
/-- C5 counterexample: the template lookup returns the raw template with the
literal placeholder, which does not contain the product name "Aqua Bottle"
verbatim, refuting the claim that `getTemplate` output contains the product
name. -/
theorem c5_counterexample :
    ¬ strContains (get_prompt_template .productDescription .professional .english)
      "Aqua Bottle" := by
  decide

/-- `round(0, 1) = 0`. -/
theorem round1_zero : round1 0 = 0 := by
  have h := round1_intCast 0
  simpa using h

/-- `round(30, 1) = 30`. -/
theorem round1_thirty : round1 30 = 30 := by
  have h := round1_intCast 30
  simpa using h

/-- C6: on every tally state the session can reach, `calculate_kpis` returns
hours equal to the saved minutes divided by 60 and rounded to one decimal,
and an average equal to the saved minutes divided by `max(count, 1)` (the
guard makes the zero-generation case return 0 instead of dividing by 0). -/
theorem c6_calculate_kpis (s : GenerationStats) (h : Reachable s) :
    (calculate_kpis s).time_saved_hours = round1 ((s.total_time_saved : ℚ) / 60) ∧
    (calculate_kpis s).avg_time_per_generation =
      (s.total_time_saved : ℚ) / ((max s.total_generations 1 : ℕ) : ℚ) ∧
    (s.total_generations = 0 → (calculate_kpis s).avg_time_per_generation = 0) := by
  obtain ⟨h30, _hc⟩ := reachable_invariant s h
  have havg : (calculate_kpis s).avg_time_per_generation =
      (s.total_time_saved : ℚ) / ((max s.total_generations 1 : ℕ) : ℚ) := by
    simp only [calculate_kpis, get_generation_stats]
    rw [h30]
    cases hn : s.total_generations with
    | zero => norm_num [round1_zero]
    | succ k =>
        have hmax : max (k + 1) 1 = k + 1 := by omega
        have hne : ((k : ℚ) + 1) ≠ 0 := by positivity
        have hdiv : ((30 * (k + 1) : ℕ) : ℚ) / ((max (k + 1) 1 : ℕ) : ℚ) = (30 : ℚ) := by
          rw [hmax]
          push_cast
          field_simp
        rw [hdiv, round1_thirty]
  refine ⟨rfl, havg, fun h0 => ?_⟩
  rw [havg, h30, h0]
  norm_num

/-- C7: `create_roi_calculation` is the pure formula of the spec -- manual
cost is hours times the fixed rate 45, AI cost is the generation count times
the fixed 0.08, net savings their difference, the ROI percentage divides by
`max(aiCost, 1)` (a divisor always at least 1, so never a division by zero),
and the cost per generation is the constant 0.08; on a reachable tally with
zero generations both the AI cost and the ROI percentage are 0. -/
theorem c7_roi (k : Kpis) (s : GenerationStats) (hs : Reachable s)
    (h0 : s.total_generations = 0) :
    (create_roi_calculation k).manual_cost = k.time_saved_hours * 45 ∧
    (create_roi_calculation k).ai_cost = (k.generations_count : ℚ) * (8 / 100) ∧
    (create_roi_calculation k).net_savings =
      (create_roi_calculation k).manual_cost - (create_roi_calculation k).ai_cost ∧
    (create_roi_calculation k).roi_percentage =
      ((create_roi_calculation k).net_savings /
        max (create_roi_calculation k).ai_cost 1) * 100 ∧
    (create_roi_calculation k).cost_per_content = 8 / 100 ∧
    (1 : ℚ) ≤ max (create_roi_calculation k).ai_cost 1 ∧
    (create_roi_calculation (calculate_kpis s)).ai_cost = 0 ∧
    (create_roi_calculation (calculate_kpis s)).roi_percentage = 0 := by
  obtain ⟨h30, _hc⟩ := reachable_invariant s hs
  have hmins : s.total_time_saved = 0 := by rw [h30, h0]
  refine ⟨rfl, rfl, rfl, rfl, rfl, le_max_right _ 1, ?_, ?_⟩
  · simp [create_roi_calculation, calculate_kpis, get_generation_stats, h0]
  · simp [create_roi_calculation, calculate_kpis, get_generation_stats, h0, hmins,
      round1_zero, ai_cost_per_generation, hourly_writer_rate]

/-- C7 witness: the theorem applied to the initial tally and an arbitrary
concrete KPI record. -/
theorem c7_roi_witness :
    (0 : Nat) = 0 ∧
    ((create_roi_calculation (calculate_kpis ⟨0, 0, 0⟩)).ai_cost = 0 ∧
      (create_roi_calculation (calculate_kpis ⟨0, 0, 0⟩)).roi_percentage = 0) :=
  ⟨rfl, (c7_roi ⟨1, 2, 3, 4⟩ ⟨0, 0, 0⟩ Reachable.init rfl).2.2.2.2.2.2⟩

/-- C6 witness: the theorem applied to the initial tally. -/
theorem c6_calculate_kpis_witness :
    (calculate_kpis ⟨0, 0, 0⟩).avg_time_per_generation = 0 :=
  (c6_calculate_kpis ⟨0, 0, 0⟩ Reachable.init).2.2 rfl

/-- C3 witness: the theorem applied to a concrete record lacking `Category`:
the call returns the error-result and leaves the tally unchanged. -/
theorem c3_missing_field_witness :
    firstMissingField ⟨some "X", none, some "f", some "a"⟩ = some "Category" ∧
    (generate_content ⟨0, 0, 0⟩ ⟨some "X", none, some "f", some "a"⟩
      .email .luxury .french (.ok "hi") 0 0).2 = ⟨0, 0, 0⟩ :=
  ⟨by decide, (c3_missing_field ⟨0, 0, 0⟩ ⟨some "X", none, some "f", some "a"⟩
    .email .luxury .french (.ok "hi") (.ok "hi") 0 0 "Category" (by decide)).2.1⟩

/-- C8: `get_generation_stats` returns a fresh copy: the reference it hands
back differs from the orchestrator's own, holds the same counter values, and
mutating it leaves the orchestrator's counters -- and therefore every later
stats read and KPI derivation -- unchanged. -/
theorem c8_get_stats_copy (st : StatsStore) (r : Nat) (v : GenerationStats)
    (h : r < st.cells.length) :
    (statsCopyOp st r).2 ≠ r ∧
    storeGet (statsCopyOp st r).1 (statsCopyOp st r).2 = storeGet st r ∧
    storeGet (storeSet (statsCopyOp st r).1 (statsCopyOp st r).2 v) r = storeGet st r ∧
    calculate_kpis (storeGet (storeSet (statsCopyOp st r).1 (statsCopyOp st r).2 v) r) =
      calculate_kpis (storeGet st r) := by
  have hne : st.cells.length ≠ r := by omega
  have hmut : storeGet (storeSet (statsCopyOp st r).1 (statsCopyOp st r).2 v) r =
      storeGet st r := by
    simp only [statsCopyOp, storeSet, storeGet, List.getD_eq_getElem?_getD]
    rw [List.getElem?_set_ne hne, List.getElem?_append_left h]
  refine ⟨hne, ?_, hmut, congrArg calculate_kpis hmut⟩
  simp only [statsCopyOp, storeGet, List.getD_eq_getElem?_getD]
  rw [List.getElem?_concat_length]
  rfl

/-- C8 witness: the theorem applied to a one-cell store. -/
theorem c8_get_stats_copy_witness :
    (0 : Nat) < (StatsStore.mk [⟨1, 30, 12⟩]).cells.length ∧
    storeGet (storeSet (statsCopyOp ⟨[⟨1, 30, 12⟩]⟩ 0).1
        (statsCopyOp ⟨[⟨1, 30, 12⟩]⟩ 0).2 ⟨9, 9, 9⟩) 0 =
      storeGet ⟨[⟨1, 30, 12⟩]⟩ 0 :=
  ⟨by decide, (c8_get_stats_copy ⟨[⟨1, 30, 12⟩]⟩ 0 ⟨9, 9, 9⟩ (by decide)).2.2.1⟩

/-- C9: `export_content` writes the literal text to a file under the fixed
`reports` directory (created if absent); with no filename the file is
`brandboost_content_<timestamp>.txt`; it returns the path of the written
file, and the file's contents equal the input text exactly. -/
theorem c9_export (fs : FileSystem) (content : String) (now : Nat) (f : String)
    (hf : f ≠ "") :
    (export_content fs content none now true).2 =
      some ("reports/" ++ defaultExportName now) ∧
    defaultExportName now = "brandboost_content_" ++ toString now ++ ".txt" ∧
    readFile (export_content fs content none now true).1
      ("reports/" ++ defaultExportName now) = some content ∧
    (export_content fs content none now true).1.dirs.contains "reports" = true ∧
    (export_content fs content (some f) now true).2 = some ("reports/" ++ f) ∧
    readFile (export_content fs content (some f) now true).1
      ("reports/" ++ f) = some content := by
  refine ⟨rfl, rfl, ?_, ?_, ?_, ?_⟩
  · simp [export_content, readFile]
  · by_cases hd : "reports" ∈ fs.dirs <;>
      simp [export_content, hd]
  · simp [export_content, hf]
  · simp [export_content, readFile, hf]

/-- C9 witness: exporting "hello" with and without an explicit filename. -/
theorem c9_export_witness :
    ("my.txt" : String) ≠ "" ∧
    readFile (export_content ⟨[], []⟩ "hello" none 0 true).1
      ("reports/" ++ defaultExportName 0) = some "hello" :=
  ⟨by decide, (c9_export ⟨[], []⟩ "hello" 0 "my.txt" (by decide)).2.2.1⟩

/-- C10: when the catch-all error path of `generate_content` is taken (a
required attribute is missing), the call is atomic for the tally -- the
counters are returned exactly as they were -- and any result it still
returns has generation time 0, the fixed placeholder content, and an error
entry in its metadata; the fallback path (remote raise after validation), in
contrast, increments the counters. -/
theorem c10_error_path_atomic (s : GenerationStats) (pd : ProductData)
    (ct : ContentType) (t : Tone) (l : Language) (r : RemoteOutcome)
    (msg : String) (e ts : Nat) (h : firstMissingField pd ≠ none) :
    (generate_content s pd ct t l r e ts).2 = s ∧
    (∀ res, (generate_content s pd ct t l r e ts).1 = Except.ok res →
      res.generation_time = 0 ∧ res.content = errorContent ∧
      res.metadata.error ≠ none) ∧
    (∀ nm cat feats aud,
      (generate_content s ⟨some nm, some cat, some feats, some aud⟩ ct t l
          (.raised msg) e ts).2 =
        ⟨s.total_generations + 1, s.total_time_saved + 30, s.total_cost_saved + 12⟩) := by
  refine ⟨?_, ?_, fun nm cat feats aud => rfl⟩
  · rcases pd with ⟨pn, c, f, a⟩
    cases pn <;> cases c <;> cases f <;> cases a <;>
      first
        | rfl
        | simp [firstMissingField] at h
  · intro res hres
    rcases pd with ⟨pn, c, f, a⟩
    cases pn <;> cases c <;> cases f <;> cases a <;>
      first
        | exact absurd rfl h
        | (simp [generate_content] at hres; subst hres; exact ⟨rfl, rfl, by simp⟩)
        | simp [generate_content] at hres

/-- C10 witness: the theorem applied to a record lacking `Category`. -/
theorem c10_error_path_atomic_witness :
    firstMissingField ⟨some "X", none, some "f", some "a"⟩ ≠ none ∧
    (generate_content ⟨2, 60, 24⟩ ⟨some "X", none, some "f", some "a"⟩
      .socialPost .playful .english (.ok "hi") 7 9).2 = ⟨2, 60, 24⟩ :=
  ⟨by decide, (c10_error_path_atomic ⟨2, 60, 24⟩ ⟨some "X", none, some "f", some "a"⟩
    .socialPost .playful .english (.ok "hi") "m" 7 9 (by decide)).1⟩

end BrandBoost
